import Mathlib

/-!
Shallow embedding of the broadcast dispatch engine of the
telegram-message-forwarder bot (source: src/unnamed/part_004, helpers in
src/unnamed/part_008 and src/database/models/User.ts).

The embedding translates, from the source:
  * `parseRetryAfterMs` (part_004 lines 50-63): rate-limit wait-hint parsing;
  * the per-recipient send logic of `sendToUsers` (part_004 lines 645-839),
    including the GramJS-preferred path with Bot API fallback, the
    missing-username skip, the per-send delay, the group-pause counter that is
    reset for every batch, and batch chunking by `batchSize`;
  * `downloadFileBufferOnce` (part_004 lines 76-117): the download-once media
    buffer caching (the source retries forever on failure; the model consumes
    a finite oracle of fetch outcomes, one entry per attempted fetch);
  * `startForwardingProcess` (part_004 lines 515-642): the guard on
    `messageId`/`chatId`, the empty-snapshot early return, the media download
    phase, the initial pass, the retry loop capped at `maxRetries = 3`, the
    running tally, and the `finally` cleanup of the per-operator state map;
  * `handleSendCommand` (part_004 lines 284-302) and the `userStates` map.

Network effects (actual sends, sleeps, group pauses) are recorded in an event
trace.  The outcome of each channel for each recipient is an input oracle
(`Channels`), one oracle per pass (`chAt : Nat -> Channels`, index 0 = the
initial pass, 1..3 = retry rounds), mirroring that real sends may succeed or
fail differently on different passes.
-/

namespace TgFwd

/-- A downloaded media payload (the source's Node `Buffer`); only identity
matters to the claims, so bytes are a list of naturals. -/
abbrev Buffer := List Nat

/-- One broadcast recipient as selected by
`User.find().select('userId username')`: a stable string id and an optional
username (the "handle" needed by the GramJS channel). -/
structure Recipient where
  userId : String
  username : Option String
  deriving DecidableEq, Repr

/-- The source's `userState.step` values. -/
inductive Step where
  | awaiting_message
  | awaiting_confirmation
  deriving DecidableEq, Repr

/-- The source's `userState.messageType` values. -/
inductive MessageType where
  | text
  | photo
  | video
  | document
  | audio
  | voice
  | sticker
  | animation
  | video_note
  | location
  | contact
  | poll
  | other
  deriving DecidableEq, Repr

/-- The source's `UserState` (part_004 lines 12-32).  `mediaFileId` stands for
`mediaData?.fileId`, the only part of `mediaData` the dispatch logic branches
on; `fileBuffer` is the cached downloaded media buffer. -/
structure UserState where
  step : Step
  messageId : Option Nat
  chatId : Option Int
  progressMessageId : Option Nat
  messageContent : Option String
  messageType : Option MessageType
  mediaFileId : Option String
  fileBuffer : Option Buffer
  deriving DecidableEq, Repr

/-- The source's `FailedUser` record (part_004 lines 35-38). -/
structure FailedUser where
  userId : String
  triedCount : Nat
  deriving DecidableEq, Repr

/-- `PER_SEND_DELAY_MS` (part_004 line 41). -/
def PER_SEND_DELAY_MS : Nat := 300

/-- `GROUP_SEND_COUNT` (part_004 line 42). -/
def GROUP_SEND_COUNT : Nat := 3

/-- Modelled from the spec: `randomGroupPauseDelayMs` is imported from the
GramJS client utility (part_004 line 5) but its definition is not among the
provided sources.  The spec describes it as a random pause duration in
[10s, 20s]; we model it as a pure function of a seed that always lands in
[minMs, maxMs]. -/
def randomGroupPauseDelayMs (minMs maxMs seed : Nat) : Nat :=
  minMs + seed % (maxMs - minMs + 1)

/-- Observable effects of a run.  `secondarySend` is a GramJS (personal
account) send, tagged with the recipient's id, the username actually passed to
the client, and the cached buffer used (mirrors
`sendMessageWithCachedBuffer` vs `sendMessageContentViaGramjs`);
`primarySend` is a Bot API `copyMessage`; `sleepMs` is a call to `sleep`;
`groupPause` is the long randomized pause after `GROUP_SEND_COUNT` sends. -/
inductive Event where
  | secondarySend (userId : String) (username : String) (buffer : Option Buffer)
  | primarySend (userId : String)
  | sleepMs (ms : Nat)
  | groupPause (ms : Nat)
  deriving DecidableEq, Repr

/-- Outcome oracle for the two delivery channels during one pass.
`secondary u = true` means the GramJS send to username `u` reports success
(the source treats a thrown GramJS error and a `false` return identically);
`primary uid` is the Bot API `copyMessage` outcome for recipient id `uid`,
with the error's message text on failure. -/
structure Channels where
  secondary : String → Bool
  primary : String → Except String Unit

/-- How the dispatch loop sees a GramJS send: `sendMessageWithCachedBuffer`
(part_004 lines 120-281) and `sendMessageContentViaGramjs` (part_008 lines
294-605) wrap the client call in a catch-all that returns `false` on any
error, and the dispatch loop's own inner catches (part_004 lines 708-712 and
737-739) collapse a throw to `success = false` as well.  Either way the
error text — including a `FLOOD_WAIT_N` rate-limit signal — is discarded
before `parseRetryAfterMs` could see it: a `Channels.secondary` oracle value
is always `gramSendOutcome` of the underlying client result. -/
def gramSendOutcome (result : Except String Bool) : Bool :=
  match result with
  | Except.ok b => b
  | Except.error _ => false

/- ### parseRetryAfterMs (part_004 lines 50-63) -/

/-- Is `c` an ASCII digit (regex `\d`)? -/
def isDigitC (c : Char) : Bool := '0' ≤ c && c ≤ '9'

/-- The leading digit run of `s` (the `\d+` capture). -/
def takeDigits (s : List Char) : List Char := s.takeWhile isDigitC

/-- `parseInt(digits, 10)`. -/
def digitsToNat (ds : List Char) : Nat :=
  ds.foldl (fun acc c => acc * 10 + (c.toNat - '0'.toNat)) 0

/-- If `pat` is a prefix of `s`, the remainder of `s` after it. -/
def matchAt : List Char → List Char → Option (List Char)
  | [], s => some s
  | _ :: _, [] => none
  | p :: ps, c :: cs => if p == c then matchAt ps cs else none

/-- Leftmost match of the pattern `pat ++ \d+ ++ suffix` in `s`, returning the
value of the digit capture (regex search semantics over an already
lower-cased string). -/
def scanNum (pat suffix : List Char) : List Char → Option Nat
  | [] => none
  | c :: cs =>
    match matchAt pat (c :: cs) with
    | some rest =>
      let ds := takeDigits rest
      if ds.isEmpty then scanNum pat suffix cs
      else
        match matchAt suffix (rest.drop ds.length) with
        | some _ => some (digitsToNat ds)
        | none => scanNum pat suffix cs
    | none => scanNum pat suffix cs

/-- `parseRetryAfterMs` (part_004 lines 50-63): extract a wait hint in
milliseconds from a channel error message, trying the Bot API pattern
`retry after N`, then `FLOOD_WAIT_N`, then `wait of N seconds`, all
case-insensitively; 0 when nothing matches. -/
def parseRetryAfterMs (msg : String) : Nat :=
  let m := msg.data.map Char.toLower
  match scanNum ("retry after ").data [] m with
  | some n => n * 1000
  | none =>
    match scanNum ("flood_wait_").data [] m with
    | some n => n * 1000
    | none =>
      match scanNum ("wait of ").data (" seconds").data m with
      | some n => n * 1000
      | none => 0

/- ### Per-recipient send logic of sendToUsers (part_004 lines 679-791) -/

/-- One Bot API `copyMessage` attempt with the rate-limit handling of
part_004 lines 715-725: on failure the loop parses the error for a wait hint
and, when positive, sleeps `waitMs + 500` before continuing. -/
def primaryAttempt (ch : Channels) (uid : String) : Bool × List Event :=
  match ch.primary uid with
  | Except.ok _ => (true, [Event.primarySend uid])
  | Except.error e =>
    let w := parseRetryAfterMs e
    (false, Event.primarySend uid :: (if 0 < w then [Event.sleepMs (w + 500)] else []))

/-- The send portion of one iteration of the per-user loop of `sendToUsers`
(part_004 lines 679-791), excluding pacing: returns whether the recipient was
recorded successful, and the send/rate-limit-sleep events in order.
  * GramJS active and no username: skip with `success = false`, no send.
  * GramJS active with a cached buffer or message content: GramJS first
    (tagged with the buffer used, `userState.fileBuffer`), Bot API as fallback
    when it fails.
  * Otherwise: Bot API only. -/
def elemSend (ch : Channels) (st : UserState) (useGramjs : Bool) (u : Recipient) :
    Bool × List Event :=
  if useGramjs then
    match u.username with
    | none => (false, [])
    | some un =>
      if st.fileBuffer.isSome || st.messageContent.isSome then
        if ch.secondary un then (true, [Event.secondarySend u.userId un st.fileBuffer])
        else
          let pa := primaryAttempt ch u.userId
          (pa.1, Event.secondarySend u.userId un st.fileBuffer :: pa.2)
      else primaryAttempt ch u.userId
  else primaryAttempt ch u.userId

/-- The pacing after each send (part_004 lines 793-801): the per-send sleep,
then, once `sendsSinceGroupPause` reaches `GROUP_SEND_COUNT`, a randomized
group pause and a counter reset.  `pr` supplies the random seed for the
`pauseIdx`-th pause of the call. -/
def pacedEvents (pr : Nat → Nat) (since pauseIdx : Nat) : List Event × Nat × Nat :=
  if GROUP_SEND_COUNT ≤ since + 1 then
    ([Event.sleepMs PER_SEND_DELAY_MS,
      Event.groupPause (randomGroupPauseDelayMs 10000 20000 (pr pauseIdx))],
     0, pauseIdx + 1)
  else ([Event.sleepMs PER_SEND_DELAY_MS], since + 1, pauseIdx)

/-- Results of one batch: the `batchResults` list (success flag and user id,
in processing order), the emitted events and the updated pause index. -/
structure BatchOut where
  results : List (Bool × String)
  trace : List Event
  pauseIdx : Nat
  deriving Repr

/-- The inner `for (const user of batch)` loop of `sendToUsers`
(part_004 lines 679-802).  `sendsSinceGroupPause` starts at the caller-given
value (the source declares it `= 0` afresh for every batch). -/
def processBatch (ch : Channels) (st : UserState) (useGramjs : Bool) (pr : Nat → Nat) :
    List Recipient → Nat → Nat → BatchOut
  | [], _, pauseIdx => ⟨[], [], pauseIdx⟩
  | u :: rest, since, pauseIdx =>
    let es := elemSend ch st useGramjs u
    let pe := pacedEvents pr since pauseIdx
    let r := processBatch ch st useGramjs pr rest pe.2.1 pe.2.2
    ⟨(es.1, u.userId) :: r.results, es.2 ++ pe.1 ++ r.trace, r.pauseIdx⟩

/-- `users.slice(i, i + batchSize)` chunking of the outer loop of
`sendToUsers` (part_004 line 673), fuel-structured so it computes by `rfl`.
The fuel is the list length, which always suffices. -/
def chunkListAux : Nat → Nat → List Recipient → List (List Recipient)
  | 0, _, _ => []
  | _ + 1, _, [] => []
  | fuel + 1, n, u :: rest =>
    (u :: rest.take (n - 1)) :: chunkListAux fuel n (rest.drop (n - 1))

/-- The batches `users.slice(0, bs), users.slice(bs, 2*bs), ...`. -/
def chunkList (batchSize : Nat) (users : List Recipient) : List (List Recipient) :=
  chunkListAux users.length batchSize users

/-- Return value of `sendToUsers` plus the event trace of the pass. -/
structure SendOutcome where
  successCount : Nat
  failureCount : Nat
  failedUserIds : List String
  trace : List Event
  deriving DecidableEq, Repr

/-- The outer batch loop of `sendToUsers` (part_004 lines 673-836): per batch,
run the per-user loop with the group-pause counter reset to 0, fold the batch
results into the running counters and the `failedUserIds` accumulator, and
sleep `delayBetweenBatches` when another batch remains. -/
def runBatches (ch : Channels) (st : UserState) (useGramjs : Bool) (pr : Nat → Nat)
    (d : Nat) : List (List Recipient) → Nat → Nat → Nat → SendOutcome
  | [], _, s, f => ⟨s, f, [], []⟩
  | b :: rest, pauseIdx, s, f =>
    let pb := processBatch ch st useGramjs pr b 0 pauseIdx
    let fails := (pb.results.filter (fun r => !r.1)).map (fun r => r.2)
    let succN := (pb.results.filter (fun r => r.1)).length
    let r2 := runBatches ch st useGramjs pr d rest pb.pauseIdx (s + succN) (f + fails.length)
    ⟨r2.successCount, r2.failureCount, fails ++ r2.failedUserIds,
     pb.trace ++ (if rest.isEmpty then [] else [Event.sleepMs d]) ++ r2.trace⟩

/-- `sendToUsers` (part_004 lines 645-839): process `users` in batches of
`batchSize`, starting the tally at the caller's running
`currentSuccessCount`/`currentFailureCount` (the source threads the running
totals through retry passes). -/
def sendToUsers (ch : Channels) (users : List Recipient) (st : UserState)
    (batchSize delayBetweenBatches : Nat) (useGramjs : Bool) (pr : Nat → Nat)
    (currentSuccessCount currentFailureCount : Nat) : SendOutcome :=
  runBatches ch st useGramjs pr delayBetweenBatches (chunkList batchSize users) 0
    currentSuccessCount currentFailureCount

/- ### downloadFileBufferOnce (part_004 lines 76-117) -/

/-- The `while (true)` download loop of `downloadFileBufferOnce`: walk the
oracle of fetch outcomes until the first successful download, counting the
fetch invocations.  The source retries forever on failure; the model stops
when the finite oracle is exhausted (returning `none`), which corresponds to
a run that is still stuck retrying. -/
def downloadLoop : List (Option Buffer) → Nat → Option Buffer × Nat
  | [], n => (none, n)
  | o :: rest, n =>
    match o with
    | some b => (some b, n + 1)
    | none => downloadLoop rest (n + 1)

/-- `downloadFileBufferOnce` (part_004 lines 76-117): only fetches when there
is a media file id, no buffer is cached yet, and a bot token is configured;
stores the first successfully downloaded buffer in the user state.  Returns
the updated state and the number of fetch invocations performed. -/
def downloadFileBufferOnce (hasToken : Bool) (fetch : List (Option Buffer))
    (st : UserState) : UserState × Nat :=
  if st.mediaFileId.isSome && st.fileBuffer.isNone && hasToken then
    match downloadLoop fetch 0 with
    | (some b, n) => ({ st with fileBuffer := some b }, n)
    | (none, n) => (st, n)
  else (st, 0)

/- ### startForwardingProcess (part_004 lines 515-642) -/

/-- `userState.messageType && userState.messageType !== 'text'`
(part_004 line 541). -/
def isMediaType : Option MessageType → Bool
  | some mt => mt != MessageType.text
  | none => false

/-- One executed retry round: the attempt number (1-3), the `usersToRetry`
list of that round and the `sendToUsers` result. -/
structure RoundRec where
  attempt : Nat
  retried : List Recipient
  out : SendOutcome
  deriving DecidableEq, Repr

/-- The retry loop of `startForwardingProcess` (part_004 lines 573-624),
structurally recursive on the remaining attempt numbers (called with
`[1, 2, 3]`, the source's `maxRetries = 3`).  Each iteration: stop if no
failed users remain; rebuild `usersToRetry` from the snapshot, keeping only
still-failed ids (and, when GramJS is used, only users with a username); stop
if it is empty; rerun `sendToUsers` seeded with the running totals; keep in
the failed list exactly the users that failed again, with `triedCount`
incremented.  `retryPred` is the `usersToRetry` filter
(part_004 lines 577-579). -/
def retryPred (fu : List FailedUser) (useGramjs : Bool) (u : Recipient) : Bool :=
  (fu.any (fun x => x.userId == u.userId)) && (!useGramjs || u.username.isSome)

def retryLoop (chAt : Nat → Channels) (users : List Recipient) (st : UserState)
    (useGramjs : Bool) (pr : Nat → Nat) :
    List Nat → List FailedUser → Nat → Nat → List RoundRec × Nat × Nat
  | [], _, s, f => ([], s, f)
  | a :: rest, fu, s, f =>
    if fu.isEmpty then ([], s, f)
    else
      let toRetry := users.filter (retryPred fu useGramjs)
      if toRetry.isEmpty then ([], s, f)
      else
        let r := sendToUsers (chAt a) toRetry st 1 0 useGramjs pr s f
        let fu2 := fu.filterMap (fun x =>
          if r.failedUserIds.contains x.userId then some ⟨x.userId, x.triedCount + 1⟩
          else none)
        let rec2 := retryLoop chAt users st useGramjs pr rest fu2 r.successCount r.failureCount
        (⟨a, toRetry, r⟩ :: rec2.1, rec2.2)

/-- Result of one `startForwardingProcess` run.  `guardAbort` is the early
return on a missing `messageId`/`chatId`; `emptyAbort` is the
"No users found" path; `snapshot` is the recipient list the dispatch actually
iterated ( `[]` on aborts); `dispatchState` is the user state used for the
passes (after the media download phase); `totalSuccess`/`totalFailure` are the
final running totals reported to the operator. -/
structure RunResult where
  guardAbort : Bool
  emptyAbort : Bool
  totalUsers : Nat
  snapshot : List Recipient
  fetchCount : Nat
  dispatchState : UserState
  initial : SendOutcome
  rounds : List RoundRec
  totalSuccess : Nat
  totalFailure : Nat
  deriving Repr

/-- The per-operator conversational state map `userStates`
(part_004 line 46), a JS `Map<number, UserState>` as an insertion-ordered
association list. -/
abbrev StateMap := List (Nat × UserState)

/-- `userStates.has(k)`. -/
def mapHas (m : StateMap) (k : Nat) : Bool := m.any (fun e => e.1 == k)

/-- `userStates.set(k, v)`: replace in place when present, append otherwise. -/
def mapSet (m : StateMap) (k : Nat) (v : UserState) : StateMap :=
  if mapHas m k then m.map (fun e => if e.1 == k then (k, v) else e) else m ++ [(k, v)]

/-- `userStates.delete(k)`. -/
def mapDelete (m : StateMap) (k : Nat) : StateMap := m.filter (fun e => e.1 != k)

/-- `userStates.get(k)`. -/
def mapGet (m : StateMap) (k : Nat) : Option UserState :=
  (m.find? (fun e => e.1 == k)).map (fun e => e.2)

/-- The empty `SendOutcome` used for runs that abort before dispatching. -/
def emptyOutcome : SendOutcome := ⟨0, 0, [], []⟩

/-- `startForwardingProcess` (part_004 lines 515-642).
  * `states` is the `userStates` map, `operatorId` the invoking admin's id,
    `st0` their collected state, `users` the database snapshot.
  * Missing `messageId`/`chatId` returns before the `try`, leaving the map
    untouched (part_004 line 516).
  * An empty snapshot replies and returns (the `finally` still deletes the
    operator's entry).
  * Otherwise: download the media buffer once when the message is media-typed,
    run the initial pass with `batchSize = 1` and `delayBetweenBatches = 0`
    from a zero tally, seed `failedUsers` with `triedCount = 1`, run up to 3
    retry rounds, and report the final running totals.
  * Every path inside the `try` ends in the `finally`'s
    `userStates.delete(userId)`; JS try/finally runs it also when the body
    throws, which `forwardingStatesAfter` makes explicit.
`dispatchStateOf` is the media download phase (part_004 lines 540-544): the
state actually used for dispatch and the number of fetch invocations. -/
def dispatchStateOf (st0 : UserState) (hasToken : Bool)
    (fetch : List (Option Buffer)) : UserState × Nat :=
  if isMediaType st0.messageType then downloadFileBufferOnce hasToken fetch st0
  else (st0, 0)

/-- The initial pass (part_004 lines 562-564): `sendToUsers` over the whole
snapshot with `batchSize = 1`, `delayBetweenBatches = 0` and a zero tally. -/
def initialPass (chAt : Nat → Channels) (users : List Recipient) (st1 : UserState)
    (useGramjs : Bool) (pr : Nat → Nat) : SendOutcome :=
  sendToUsers (chAt 0) users st1 1 0 useGramjs pr 0 0

/-- The retry phase (part_004 lines 570-624): seed `failedUsers` from the
initial pass with `triedCount = 1` and run the retry loop for attempts
1, 2, 3, starting from the initial pass's running totals. -/
def retryPhase (chAt : Nat → Channels) (users : List Recipient) (st1 : UserState)
    (useGramjs : Bool) (pr : Nat → Nat) (init : SendOutcome) :
    List RoundRec × Nat × Nat :=
  retryLoop chAt users st1 useGramjs pr [1, 2, 3]
    (init.failedUserIds.map (fun uid => FailedUser.mk uid 1))
    init.successCount init.failureCount

def startForwardingProcess (states : StateMap) (operatorId : Nat) (st0 : UserState)
    (users : List Recipient) (useGramjs hasToken : Bool) (chAt : Nat → Channels)
    (fetch : List (Option Buffer)) (pr : Nat → Nat) : RunResult × StateMap :=
  if st0.messageId.isNone || st0.chatId.isNone then
    (⟨true, false, users.length, [], 0, st0, emptyOutcome, [], 0, 0⟩, states)
  else if users.isEmpty then
    (⟨false, true, 0, [], 0, st0, emptyOutcome, [], 0, 0⟩, mapDelete states operatorId)
  else
    let dl := dispatchStateOf st0 hasToken fetch
    let init := initialPass chAt users dl.1 useGramjs pr
    let rr := retryPhase chAt users dl.1 useGramjs pr init
    (⟨false, false, users.length, users, dl.2, dl.1, init, rr.1, rr.2.1, rr.2.2⟩,
     mapDelete states operatorId)

/-- The state map after `startForwardingProcess` terminates, with the JS
`try`/`catch`/`finally` made explicit: when the body throws mid-run
(`threw = true`), the `catch` swallows the error and the `finally` still
deletes the operator's entry; the guard return at part_004 line 516 sits
before the `try` and skips the cleanup. -/
def forwardingStatesAfter (threw : Bool) (states : StateMap) (operatorId : Nat)
    (st0 : UserState) (users : List Recipient) (useGramjs hasToken : Bool)
    (chAt : Nat → Channels) (fetch : List (Option Buffer)) (pr : Nat → Nat) : StateMap :=
  if st0.messageId.isNone || st0.chatId.isNone then states
  else if threw then mapDelete states operatorId
  else (startForwardingProcess states operatorId st0 users useGramjs hasToken chAt fetch pr).2

/- ### handleSendCommand (part_004 lines 284-302) -/

/-- The Telegram chat types the handler can see. -/
inductive ChatKind where
  | priv
  | group
  | supergroup
  | channelChat
  deriving DecidableEq, Repr

/-- The slice of the grammY `Context` that `handleSendCommand` reads. -/
structure SendCtx where
  fromId : Option Nat
  chatKind : Option ChatKind
  deriving DecidableEq, Repr

/-- The reply to a second `/send` while a flow is active (part_004 line 295). -/
def activeFlowReply : String :=
  "You already have an active send process. Please complete it first."

/-- The prompt starting a fresh flow (part_004 line 301). -/
def askMessageReply : String := "📝 What message do you want to send to all users?"

/-- The fresh state stored by `/send` (part_004 line 300). -/
def freshSendState : UserState :=
  ⟨Step.awaiting_message, none, none, none, none, none, none, none⟩

/-- `handleSendCommand` (part_004 lines 284-302): ignore updates without a
sender or outside private chats; reject when the operator already has an
active flow, leaving the map untouched; otherwise store a fresh
`awaiting_message` state and prompt for the message.  Returns the updated map
and the reply sent, if any. -/
def handleSendCommand (m : StateMap) (c : SendCtx) : StateMap × Option String :=
  match c.fromId with
  | none => (m, none)
  | some uid =>
    if c.chatKind ≠ some ChatKind.priv then (m, none)
    else if mapHas m uid then (m, some activeFlowReply)
    else (mapSet m uid freshSendState, some askMessageReply)

/- ### Derived observations used by the claims -/

/-- First-seen-order deduplication of a list of ids (the spec's
`distinct ids`). -/
def firstSeenDedup : List String → List String → List String
  | [], _ => []
  | x :: rest, seen =>
    if seen.contains x then firstSeenDedup rest seen
    else x :: firstSeenDedup rest (x :: seen)

/-- The distinct recipient ids of a snapshot, in first-seen order. -/
def distinctIds (users : List Recipient) : List String :=
  firstSeenDedup (users.map (fun u => u.userId)) []

/-- How many elements of `l` carry the id `uid`. -/
def countById (l : List Recipient) (uid : String) : Nat :=
  l.countP (fun u => u.userId == uid)

/-- Is `e` a delivery attempt (on either channel) aimed at recipient `uid`? -/
def isSendFor (uid : String) : Event → Bool
  | Event.secondarySend u _ _ => u == uid
  | Event.primarySend u => u == uid
  | _ => false

/-- Is `e` a Bot API send aimed at `uid`? -/
def isPrimaryFor (uid : String) : Event → Bool
  | Event.primarySend u => u == uid
  | _ => false

/-- Is `e` a GramJS send aimed at `uid`? -/
def isSecondaryFor (uid : String) : Event → Bool
  | Event.secondarySend u _ _ => u == uid
  | _ => false

/-- Is `e` a group pause? -/
def isGroupPause : Event → Bool
  | Event.groupPause _ => true
  | _ => false

/-- Is `e` the fixed per-send delay? -/
def isPerSendSleep : Event → Bool
  | Event.sleepMs ms => ms == PER_SEND_DELAY_MS
  | _ => false

/-- Group pauses issued in a whole run (initial pass and every retry round). -/
def runGroupPauses (r : RunResult) : Nat :=
  r.initial.trace.countP isGroupPause
    + (r.rounds.map (fun rd => rd.out.trace.countP isGroupPause)).sum

/-- Delivery attempts aimed at `uid` over a whole run: one per occurrence of
`uid` in the initial snapshot pass plus one per occurrence in each retry
round's `usersToRetry` list (a GramJS-with-fallback iteration counts as a
single attempt, as in the spec). -/
def attemptsOn (r : RunResult) (uid : String) : Nat :=
  countById r.snapshot uid + (r.rounds.map (fun rd => countById rd.retried uid)).sum

/- ### Concrete fixtures for the closed theorems -/

/-- A collected text-broadcast state (the `/send` flow finished and
confirmed): `messageId`/`chatId` set, text content present, no media. -/
def textState : UserState :=
  ⟨Step.awaiting_confirmation, some 10, some 5, none, some "hi",
   some MessageType.text, none, none⟩

/-- A collected photo-broadcast state: media file id present, no cached
buffer yet. -/
def mediaState : UserState :=
  ⟨Step.awaiting_confirmation, some 10, some 5, none, some "pic",
   some MessageType.photo, some "file123", none⟩

/-- Channel oracle for every pass: the Bot API succeeds for everyone, GramJS
always fails. -/
def chOkAll : Nat → Channels :=
  fun _ => ⟨fun _ => false, fun _ => Except.ok ()⟩

/-- Channel oracle: the Bot API fails (no rate-limit hint) for id "1" in the
initial pass and succeeds otherwise. -/
def chFailFirst : Nat → Channels :=
  fun r =>
    ⟨fun _ => false,
     fun uid => if r == 0 && uid == "1" then Except.error "boom" else Except.ok ()⟩

/-- Channel oracle: every GramJS client call raises `FLOOD_WAIT_30` (a
rate-limit signal with a 30-second hint), which the send helpers swallow into
`false`; the Bot API succeeds for everyone. -/
def chGramFlood : Nat → Channels :=
  fun _ =>
    ⟨fun _ => gramSendOutcome (Except.error "FLOOD_WAIT_30"),
     fun _ => Except.ok ()⟩

/-- Is `e` a sleep of at least 30 seconds (what honoring a `FLOOD_WAIT_30`
hint would require)? -/
def isSleepAtLeast30s : Event → Bool
  | Event.sleepMs ms => decide (30000 ≤ ms)
  | _ => false

/-- The spec's duplicate-id scenario list. -/
def dupUsers : List Recipient :=
  [⟨"1", some "a"⟩, ⟨"2", none⟩, ⟨"1", some "a"⟩]

/-- Seven distinct recipients (the spec's rate-pacing scenario). -/
def sevenUsers : List Recipient :=
  [⟨"1", none⟩, ⟨"2", none⟩, ⟨"3", none⟩, ⟨"4", none⟩, ⟨"5", none⟩,
   ⟨"6", none⟩, ⟨"7", none⟩]

/- ### Characterizing the loops -/

/-- `sendToUsers` as the source invokes it (`batchSize = 1`) reduces to a
plain sequential fold over the recipients; `runSeq` is that fold. -/
def runSeq (ch : Channels) (st : UserState) (useGramjs : Bool) (d : Nat) :
    List Recipient → Nat → Nat → SendOutcome
  | [], s, f => ⟨s, f, [], []⟩
  | u :: rest, s, f =>
    let es := elemSend ch st useGramjs u
    let r := runSeq ch st useGramjs d rest (if es.1 then s + 1 else s)
      (if es.1 then f else f + 1)
    ⟨r.successCount, r.failureCount,
     (if es.1 then [] else [u.userId]) ++ r.failedUserIds,
     es.2 ++ [Event.sleepMs PER_SEND_DELAY_MS]
       ++ (if rest.isEmpty then [] else [Event.sleepMs d]) ++ r.trace⟩

lemma isEmpty_map {α β : Type} (f : α → β) (l : List α) :
    (l.map f).isEmpty = l.isEmpty := by
  cases l <;> rfl

lemma chunkListAux_one (fuel : Nat) :
    ∀ users : List Recipient, users.length ≤ fuel →
      chunkListAux fuel 1 users = users.map (fun u => [u]) := by
  induction fuel with
  | zero =>
    intro users h
    cases users with
    | nil => rfl
    | cons u rest => exact (Nat.not_succ_le_zero rest.length h).elim
  | succ n ih =>
    intro users h
    cases users with
    | nil => rfl
    | cons u rest =>
      simp only [chunkListAux, List.map_cons]
      rw [List.take_zero, List.drop_zero, ih rest (Nat.le_of_succ_le_succ h)]

lemma chunkList_one (users : List Recipient) :
    chunkList 1 users = users.map (fun u => [u]) :=
  chunkListAux_one users.length users le_rfl

lemma runBatches_singletons (ch : Channels) (st : UserState) (useGramjs : Bool)
    (pr : Nat → Nat) (d : Nat) :
    ∀ (users : List Recipient) (pauseIdx s f : Nat),
      runBatches ch st useGramjs pr d (users.map (fun u => [u])) pauseIdx s f
        = runSeq ch st useGramjs d users s f := by
  intro users
  induction users with
  | nil => intro pauseIdx s f; rfl
  | cons u rest ih =>
    intro pauseIdx s f
    rcases h : elemSend ch st useGramjs u with ⟨suc, evs⟩
    cases suc <;>
      simp [runBatches, runSeq, processBatch, pacedEvents, h, GROUP_SEND_COUNT, ih,
        isEmpty_map, List.append_assoc]

/-- As invoked (`batchSize = 1`), `sendToUsers` is the sequential fold. -/
lemma sendToUsers_one (ch : Channels) (users : List Recipient) (st : UserState)
    (d : Nat) (useGramjs : Bool) (pr : Nat → Nat) (s f : Nat) :
    sendToUsers ch users st 1 d useGramjs pr s f = runSeq ch st useGramjs d users s f := by
  rw [sendToUsers, chunkList_one, runBatches_singletons]

/-- Every pass moves every processed recipient into exactly one of the two
counters: the counters grow by precisely the length of the processed list. -/
lemma runSeq_counters (ch : Channels) (st : UserState) (useGramjs : Bool) (d : Nat) :
    ∀ (users : List Recipient) (s f : Nat),
      (runSeq ch st useGramjs d users s f).successCount
        + (runSeq ch st useGramjs d users s f).failureCount = s + f + users.length := by
  intro users
  induction users with
  | nil => intro s f; simp [runSeq]
  | cons u rest ih =>
    intro s f
    rcases h : elemSend ch st useGramjs u with ⟨suc, evs⟩
    cases suc <;> simp [runSeq, h, ih] <;> try omega

/-- `failedUserIds` of a pass is exactly the ids of the processed recipients
whose per-recipient send came back unsuccessful, in processing order. -/
lemma runSeq_failed (ch : Channels) (st : UserState) (useGramjs : Bool) (d : Nat) :
    ∀ (users : List Recipient) (s f : Nat),
      (runSeq ch st useGramjs d users s f).failedUserIds
        = (users.filter (fun u => !(elemSend ch st useGramjs u).1)).map
            (fun u => u.userId) := by
  intro users
  induction users with
  | nil => intro s f; simp [runSeq]
  | cons u rest ih =>
    intro s f
    rcases h : elemSend ch st useGramjs u with ⟨suc, evs⟩
    cases suc <;> simp [runSeq, h, ih, List.filter]

/-- Shape of the events a Bot API attempt can emit: the send itself, and
possibly a rate-limit sleep of `waitMs + 500` with a positive hint. -/
lemma primaryAttempt_shape (ch : Channels) (uid : String) :
    ∀ e ∈ (primaryAttempt ch uid).2,
      e = Event.primarySend uid ∨ ∃ w, 0 < w ∧ e = Event.sleepMs (w + 500) := by
  intro e he
  unfold primaryAttempt at he
  rcases h : ch.primary uid with er | u0 <;> simp only [h] at he
  · by_cases hw : 0 < parseRetryAfterMs er
    · rw [if_pos hw] at he
      simp at he
      rcases he with he | he
      · exact Or.inl he
      · exact Or.inr ⟨parseRetryAfterMs er, hw, he⟩
    · rw [if_neg hw] at he
      simp at he
      exact Or.inl he
  · simp at he
    exact Or.inl he

/-- Shape of the events one per-recipient send can emit: a GramJS send tagged
with this recipient's id and the state's cached buffer, a Bot API send tagged
with this recipient's id, or a rate-limit sleep of at least 501 ms. -/
lemma elemSend_shape (ch : Channels) (st : UserState) (useGramjs : Bool)
    (u : Recipient) :
    ∀ e ∈ (elemSend ch st useGramjs u).2,
      (∃ un, e = Event.secondarySend u.userId un st.fileBuffer)
        ∨ e = Event.primarySend u.userId
        ∨ ∃ w, 0 < w ∧ e = Event.sleepMs (w + 500) := by
  intro e he
  unfold elemSend at he
  cases useGramjs with
  | false =>
    simp only [Bool.false_eq_true, if_false] at he
    rcases primaryAttempt_shape ch u.userId e he with h | h
    · exact Or.inr (Or.inl h)
    · exact Or.inr (Or.inr h)
  | true =>
    simp only [if_true] at he
    rcases hu : u.username with _ | un <;> simp only [hu] at he
    · simp at he
    · by_cases hb : (st.fileBuffer.isSome || st.messageContent.isSome) = true
      · rw [if_pos hb] at he
        by_cases hs : ch.secondary un = true
        · rw [if_pos hs] at he
          simp at he
          exact Or.inl ⟨un, he⟩
        · rw [if_neg hs] at he
          simp only [List.mem_cons] at he
          rcases he with he | he
          · exact Or.inl ⟨un, he⟩
          · rcases primaryAttempt_shape ch u.userId e he with h | h
            · exact Or.inr (Or.inl h)
            · exact Or.inr (Or.inr h)
      · rw [if_neg hb] at he
        rcases primaryAttempt_shape ch u.userId e he with h | h
        · exact Or.inr (Or.inl h)
        · exact Or.inr (Or.inr h)

/-- The per-recipient send logic never emits a group pause (pauses come only
from the pacing code). -/
lemma elemSend_no_pause (ch : Channels) (st : UserState) (useGramjs : Bool)
    (u : Recipient) : (elemSend ch st useGramjs u).2.countP isGroupPause = 0 := by
  rw [List.countP_eq_zero]
  intro e he
  rcases elemSend_shape ch st useGramjs u e he with ⟨un, rfl⟩ | rfl | ⟨w, hw, rfl⟩ <;>
    simp [isGroupPause]

/-- The per-recipient send logic never emits the fixed per-send delay (its
only sleeps are rate-limit waits of at least 501 ms). -/
lemma elemSend_no_per_send (ch : Channels) (st : UserState) (useGramjs : Bool)
    (u : Recipient) : (elemSend ch st useGramjs u).2.countP isPerSendSleep = 0 := by
  rw [List.countP_eq_zero]
  intro e he
  rcases elemSend_shape ch st useGramjs u e he with ⟨un, rfl⟩ | rfl | ⟨w, hw, rfl⟩ <;>
    simp [isPerSendSleep, PER_SEND_DELAY_MS]

/-- Every event a per-recipient send emits that targets some recipient
targets this recipient. -/
lemma elemSend_send_tag (ch : Channels) (st : UserState) (useGramjs : Bool)
    (u : Recipient) (uid : String) (hne : u.userId ≠ uid) :
    (elemSend ch st useGramjs u).2.countP (isSendFor uid) = 0 := by
  rw [List.countP_eq_zero]
  intro e he
  rcases elemSend_shape ch st useGramjs u e he with ⟨un, rfl⟩ | rfl | ⟨w, hw, rfl⟩ <;>
    simp [isSendFor, hne]

/-- Same, restricted to Bot API sends. -/
lemma elemSend_primary_tag (ch : Channels) (st : UserState) (useGramjs : Bool)
    (u : Recipient) (uid : String) (hne : u.userId ≠ uid) :
    (elemSend ch st useGramjs u).2.countP (isPrimaryFor uid) = 0 := by
  rw [List.countP_eq_zero]
  intro e he
  rcases elemSend_shape ch st useGramjs u e he with ⟨un, rfl⟩ | rfl | ⟨w, hw, rfl⟩ <;>
    simp [isPrimaryFor, hne]

/-- Same, restricted to GramJS sends. -/
lemma elemSend_secondary_tag (ch : Channels) (st : UserState) (useGramjs : Bool)
    (u : Recipient) (uid : String) (hne : u.userId ≠ uid) :
    (elemSend ch st useGramjs u).2.countP (isSecondaryFor uid) = 0 := by
  rw [List.countP_eq_zero]
  intro e he
  rcases elemSend_shape ch st useGramjs u e he with ⟨un, rfl⟩ | rfl | ⟨w, hw, rfl⟩ <;>
    simp [isSecondaryFor, hne]

/-- A sequential pass emits no group pause: each singleton batch restarts the
`sendsSinceGroupPause` counter, so it never reaches `GROUP_SEND_COUNT`. -/
lemma runSeq_no_pause (ch : Channels) (st : UserState) (useGramjs : Bool) (d : Nat) :
    ∀ (users : List Recipient) (s f : Nat),
      (runSeq ch st useGramjs d users s f).trace.countP isGroupPause = 0 := by
  intro users
  induction users with
  | nil => intro s f; simp [runSeq]
  | cons u rest ih =>
    intro s f
    cases hr : rest.isEmpty <;>
      simp [runSeq, List.countP_append, elemSend_no_pause, ih, isGroupPause, hr]

/-- A sequential pass with no inter-batch delay emits exactly one per-send
delay per processed recipient. -/
lemma runSeq_per_send (ch : Channels) (st : UserState) (useGramjs : Bool) :
    ∀ (users : List Recipient) (s f : Nat),
      (runSeq ch st useGramjs 0 users s f).trace.countP isPerSendSleep
        = users.length := by
  intro users
  induction users with
  | nil => intro s f; simp [runSeq]
  | cons u rest ih =>
    intro s f
    cases hr : rest.isEmpty <;>
      simp [runSeq, List.countP_append, elemSend_no_per_send, ih, isPerSendSleep, hr,
        PER_SEND_DELAY_MS]

/-- For a predicate that ignores sleeps, the trace count of a sequential pass
is the sum of the per-recipient send-event counts. -/
lemma runSeq_countP_sends (ch : Channels) (st : UserState) (useGramjs : Bool)
    (d : Nat) (p : Event → Bool) (hsleep : ∀ ms, p (Event.sleepMs ms) = false) :
    ∀ (users : List Recipient) (s f : Nat),
      (runSeq ch st useGramjs d users s f).trace.countP p
        = (users.map (fun u => (elemSend ch st useGramjs u).2.countP p)).sum := by
  intro users
  induction users with
  | nil => intro s f; simp [runSeq]
  | cons u rest ih =>
    intro s f
    cases hr : rest.isEmpty <;>
      simp [runSeq, List.countP_append, ih, hsleep, hr]

/-- Events emitted by a recipient's send portion appear in the pass trace. -/
lemma runSeq_mem_trace (ch : Channels) (st : UserState) (useGramjs : Bool)
    (d : Nat) (u : Recipient) (e : Event) :
    ∀ (users : List Recipient) (s f : Nat), u ∈ users →
      e ∈ (elemSend ch st useGramjs u).2 →
      e ∈ (runSeq ch st useGramjs d users s f).trace := by
  intro users
  induction users with
  | nil => intro s f h _; simp at h
  | cons v rest ih =>
    intro s f hu he
    rcases List.mem_cons.mp hu with rfl | hu
    · simp [runSeq, List.mem_append]
      tauto
    · have hmem := ih ((if (elemSend ch st useGramjs v).1 then s + 1 else s))
        ((if (elemSend ch st useGramjs v).1 then f else f + 1)) hu he
      simp [runSeq, List.mem_append]
      tauto

/- ### countById helpers -/

lemma countById_filter_le (q : Recipient → Bool) (uid : String) :
    ∀ l : List Recipient, countById (l.filter q) uid ≤ countById l uid := by
  intro l
  induction l with
  | nil => simp [countById]
  | cons u rest ih =>
    by_cases hq : q u = true <;>
      simp [countById, List.filter_cons, hq, List.countP_cons] at * <;> omega

lemma countById_filter_zero (q : Recipient → Bool) (uid : String)
    (l : List Recipient) (h : ∀ u ∈ l, u.userId = uid → q u = false) :
    countById (l.filter q) uid = 0 := by
  rw [countById, List.countP_eq_zero]
  intro u hu hbeq
  rcases List.mem_filter.mp hu with ⟨hul, hq⟩
  have heq : u.userId = uid := by simpa using hbeq
  rw [h u hul heq] at hq
  exact Bool.false_ne_true hq

/-- When the snapshot has no duplicate ids, no id occurs twice. -/
lemma countById_le_one_of_nodup (users : List Recipient) (uid : String)
    (h : (users.map (fun u => u.userId)).Nodup) : countById users uid ≤ 1 := by
  have : countById users uid = (users.map (fun u => u.userId)).count uid := by
    rw [countById, List.count, List.countP_map]
    rfl
  rw [this]
  exact List.nodup_iff_count_le_one.mp h uid

/-- Elements with id `uid` outside the trace: a pass over a list without any
occurrence of `uid` contains no send event aimed at `uid`. -/
lemma runSeq_no_sends_of_absent (ch : Channels) (st : UserState) (useGramjs : Bool)
    (d : Nat) (uid : String) (users : List Recipient)
    (h : countById users uid = 0) (s f : Nat) :
    (runSeq ch st useGramjs d users s f).trace.countP (isSendFor uid) = 0 := by
  rw [runSeq_countP_sends ch st useGramjs d (isSendFor uid) (fun ms => rfl)]
  rw [countById, List.countP_eq_zero] at h
  apply List.sum_eq_zero
  intro x hx
  rcases List.mem_map.mp hx with ⟨u, hu, rfl⟩
  have hne : u.userId ≠ uid := by
    intro heq
    exact h u hu (by simp [heq])
  exact elemSend_send_tag ch st useGramjs u uid hne

/- ### Retry loop structure -/

/-- At most as many retry rounds execute as there are attempt numbers left
(the source loops `retryAttempt = 1 .. maxRetries`). -/
lemma retryLoop_len (chAt : Nat → Channels) (users : List Recipient) (st : UserState)
    (useGramjs : Bool) (pr : Nat → Nat) :
    ∀ (fuel : List Nat) (fu : List FailedUser) (s f : Nat),
      (retryLoop chAt users st useGramjs pr fuel fu s f).1.length ≤ fuel.length := by
  intro fuel
  induction fuel with
  | nil => intro fu s f; simp [retryLoop]
  | cons a rest ih =>
    intro fu s f
    simp only [retryLoop]
    split
    · simp
    · split
      · simp
      · simpa using ih _ _ _

/-- The ids still in the failed list after a round are ids that were in it
before the round. -/
lemma stillFailed_ids_subset (fu : List FailedUser) (ids : List String) (z : FailedUser)
    (hz : z ∈ fu.filterMap (fun x =>
      if ids.contains x.userId then some (FailedUser.mk x.userId (x.triedCount + 1))
      else none)) :
    z.userId ∈ fu.map (fun x => x.userId) := by
  rcases List.mem_filterMap.mp hz with ⟨x, hx, hxz⟩
  by_cases hc : ids.contains x.userId = true
  · rw [if_pos hc] at hxz
    injection hxz with h
    subst h
    simpa using List.mem_map_of_mem (fun y => y.userId) hx
  · rw [if_neg hc] at hxz
    cases hxz

/-- Structure of every executed retry round: its `usersToRetry` is the
snapshot filtered by `retryPred` for some failed list whose ids come from the
initial failed list, and its outcome is a `batchSize = 1` `sendToUsers` pass
over that list. -/
lemma retryLoop_rounds_shape (chAt : Nat → Channels) (users : List Recipient)
    (st : UserState) (useGramjs : Bool) (pr : Nat → Nat) :
    ∀ (fuel : List Nat) (fu : List FailedUser) (s f : Nat),
      ∀ rd ∈ (retryLoop chAt users st useGramjs pr fuel fu s f).1,
        ∃ fu2 s2 f2, rd.retried = users.filter (retryPred fu2 useGramjs)
          ∧ rd.out = sendToUsers (chAt rd.attempt) rd.retried st 1 0 useGramjs pr s2 f2
          ∧ (∀ z ∈ fu2, z.userId ∈ fu.map (fun x => x.userId)) := by
  intro fuel
  induction fuel with
  | nil => intro fu s f rd h; simp [retryLoop] at h
  | cons a rest ih =>
    intro fu s f rd hrd
    simp only [retryLoop] at hrd
    by_cases h1 : fu.isEmpty
    · rw [if_pos h1] at hrd
      simp at hrd
    · rw [if_neg h1] at hrd
      by_cases h2 : (users.filter (retryPred fu useGramjs)).isEmpty
      · rw [if_pos h2] at hrd
        simp at hrd
      · rw [if_neg h2] at hrd
        simp only [List.mem_cons] at hrd
        rcases hrd with rfl | hrd
        · exact ⟨fu, s, f, rfl, rfl, fun z hz => List.mem_map_of_mem _ hz⟩
        · rcases ih _ _ _ rd hrd with ⟨fu2, s2, f2, hret, hout, hsub⟩
          refine ⟨fu2, s2, f2, hret, hout, fun z hz => ?_⟩
          rcases List.mem_map.mp (hsub z hz) with ⟨z2, hz2, hzz⟩
          rw [← hzz]
          exact stillFailed_ids_subset fu _ z2 hz2

/-- When no id occurs twice in the snapshot, the retry rounds together
attempt any fixed id at most once per round. -/
lemma retryLoop_attempt_sum (chAt : Nat → Channels) (users : List Recipient)
    (st : UserState) (useGramjs : Bool) (pr : Nat → Nat) (uid : String)
    (hcount : countById users uid ≤ 1) :
    ∀ (fuel : List Nat) (fu : List FailedUser) (s f : Nat),
      (((retryLoop chAt users st useGramjs pr fuel fu s f).1.map
        (fun rd => countById rd.retried uid)).sum) ≤ fuel.length := by
  intro fuel
  induction fuel with
  | nil => intro fu s f; simp [retryLoop]
  | cons a rest ih =>
    intro fu s f
    simp only [retryLoop]
    split
    · simp
    · split
      · simp
      · simp only [List.map_cons, List.sum_cons, List.length_cons]
        have h1 : countById (users.filter (retryPred fu useGramjs)) uid ≤ 1 :=
          le_trans (countById_filter_le _ _ users) hcount
        refine le_trans (Nat.add_le_add h1 (ih _ _ _)) (by omega)

/- ### Normal-path unfolding of a run -/

lemma run_normal_eq (states : StateMap) (operatorId : Nat) (st0 : UserState)
    (users : List Recipient) (useGramjs hasToken : Bool) (chAt : Nat → Channels)
    (fetch : List (Option Buffer)) (pr : Nat → Nat) (m : Nat) (c : Int)
    (hm : st0.messageId = some m) (hc : st0.chatId = some c)
    (h3 : users.isEmpty = false) :
    startForwardingProcess states operatorId st0 users useGramjs hasToken chAt fetch pr
      = (⟨false, false, users.length, users,
          (dispatchStateOf st0 hasToken fetch).2,
          (dispatchStateOf st0 hasToken fetch).1,
          initialPass chAt users (dispatchStateOf st0 hasToken fetch).1 useGramjs pr,
          (retryPhase chAt users (dispatchStateOf st0 hasToken fetch).1 useGramjs pr
            (initialPass chAt users (dispatchStateOf st0 hasToken fetch).1 useGramjs pr)).1,
          (retryPhase chAt users (dispatchStateOf st0 hasToken fetch).1 useGramjs pr
            (initialPass chAt users (dispatchStateOf st0 hasToken fetch).1 useGramjs pr)).2.1,
          (retryPhase chAt users (dispatchStateOf st0 hasToken fetch).1 useGramjs pr
            (initialPass chAt users (dispatchStateOf st0 hasToken fetch).1 useGramjs pr)).2.2⟩,
         mapDelete states operatorId) := by
  simp only [startForwardingProcess, hm, hc, Option.isNone_some, Bool.or_self,
    Bool.false_eq_true, if_false, h3]

/- ### Snapshot id helpers -/

/-- With duplicate-free ids, two snapshot members with the same id are the
same member. -/
lemma eq_of_same_id (users : List Recipient)
    (hnd : (users.map (fun u => u.userId)).Nodup) (x y : Recipient)
    (hx : x ∈ users) (hy : y ∈ users) (hxy : x.userId = y.userId) : x = y :=
  List.inj_on_of_nodup_map hnd hx hy hxy

/-- With duplicate-free ids, a member occurs exactly once as a list element. -/
lemma count_eq_one_of_nodup_ids (users : List Recipient) (usr : Recipient)
    (hnd : (users.map (fun u => u.userId)).Nodup) (hmem : usr ∈ users) :
    users.count usr = 1 := by
  have hle : users.count usr ≤ countById users usr.userId := by
    rw [countById, List.count]
    exact List.countP_mono_left (fun a _ hpa => by
      have : a = usr := by simpa using hpa
      simp [this])
  have h1 : countById users usr.userId ≤ 1 := countById_le_one_of_nodup users _ hnd
  have h2 : 0 < users.count usr := List.count_pos_iff.mpr hmem
  omega

/-- Summing a per-element weight that vanishes away from a unique element. -/
lemma sum_map_single (g : Recipient → Nat) (x : Recipient) :
    ∀ l : List Recipient, l.count x = 1 → (∀ y ∈ l, y ≠ x → g y = 0) →
      (l.map g).sum = g x := by
  intro l
  induction l with
  | nil => intro h _; simp at h
  | cons y rest ih =>
    intro hc hz
    by_cases hyx : y = x
    · subst hyx
      have hrest : rest.count y = 0 := by
        rw [List.count_cons_self] at hc
        omega
      have : (rest.map g).sum = 0 := by
        apply List.sum_eq_zero
        intro v hv
        rcases List.mem_map.mp hv with ⟨u, hu, rfl⟩
        apply hz u (List.mem_cons_of_mem _ hu)
        intro huy
        subst huy
        rw [List.count_eq_zero] at hrest
        exact hrest hu
      simp [this]
    · have hgy : g y = 0 := hz y (List.mem_cons_self y rest) hyx
      have hc2 : rest.count x = 1 := by
        rw [List.count_cons_of_ne (Ne.symm hyx)] at hc
        exact hc
      have := ih hc2 (fun v hv hvx => hz v (List.mem_cons_of_mem _ hv) hvx)
      simp [hgy, this]

/-- A run over a nodup-id snapshot: trace count of a send-targeting predicate
reduces to the single occurrence's own count. -/
lemma runSeq_countP_single (ch : Channels) (st : UserState) (useGramjs : Bool)
    (d : Nat) (p : Event → Bool) (hsleep : ∀ ms, p (Event.sleepMs ms) = false)
    (users : List Recipient) (usr : Recipient)
    (hnd : (users.map (fun u => u.userId)).Nodup) (hmem : usr ∈ users)
    (hz : ∀ y ∈ users, y ≠ usr → (elemSend ch st useGramjs y).2.countP p = 0)
    (s f : Nat) :
    (runSeq ch st useGramjs d users s f).trace.countP p
      = (elemSend ch st useGramjs usr).2.countP p := by
  rw [runSeq_countP_sends ch st useGramjs d p hsleep]
  exact sum_map_single _ usr users (count_eq_one_of_nodup_ids users usr hnd hmem) hz

/-- GramJS send events in a pass always carry the pass state's cached
buffer. -/
lemma runSeq_secondary_buffer (ch : Channels) (st : UserState) (useGramjs : Bool)
    (d : Nat) (users : List Recipient) (s f : Nat) (uid un : String)
    (b : Option Buffer)
    (h : Event.secondarySend uid un b ∈ (runSeq ch st useGramjs d users s f).trace) :
    b = st.fileBuffer := by
  have h0 : (runSeq ch st useGramjs d users s f).trace.countP
      (fun e => match e with
        | Event.secondarySend _ _ b2 => !(b2 == st.fileBuffer)
        | _ => false) = 0 := by
    rw [runSeq_countP_sends ch st useGramjs d _ (fun ms => rfl)]
    apply List.sum_eq_zero
    intro v hv
    rcases List.mem_map.mp hv with ⟨u, hu, rfl⟩
    rw [List.countP_eq_zero]
    intro e he
    rcases elemSend_shape ch st useGramjs u e he with ⟨un2, rfl⟩ | rfl | ⟨w, _, rfl⟩ <;>
      simp
  rw [List.countP_eq_zero] at h0
  have h1 := h0 _ h
  simpa using h1

/-- No GramJS send event at all is emitted for a recipient whose every
occurrence lacks a username (the skip branch emits nothing). -/
lemma elemSend_none_username (ch : Channels) (st : UserState) (u : Recipient)
    (hu : u.username = none) : elemSend ch st true u = (false, []) := by
  simp [elemSend, hu]

/- ### State map helpers -/

lemma mapHas_delete (m : StateMap) (k : Nat) : mapHas (mapDelete m k) k = false := by
  rw [mapHas, List.any_eq_false]
  intro x hx
  rcases List.mem_filter.mp hx with ⟨_, hne⟩
  simp only [bne_iff_ne, ne_eq] at hne
  simp [hne]

lemma mapGet_delete (m : StateMap) (k : Nat) : mapGet (mapDelete m k) k = none := by
  rw [mapGet, Option.map_eq_none', List.find?_eq_none]
  intro x hx
  rcases List.mem_filter.mp hx with ⟨_, hne⟩
  simp only [bne_iff_ne, ne_eq] at hne
  simp [hne]

lemma forwardingStatesAfter_deletes (threw : Bool) (states : StateMap)
    (operatorId : Nat) (st0 : UserState) (users : List Recipient)
    (useGramjs hasToken : Bool) (chAt : Nat → Channels)
    (fetch : List (Option Buffer)) (pr : Nat → Nat) (m : Nat) (c : Int)
    (hm : st0.messageId = some m) (hc : st0.chatId = some c) :
    forwardingStatesAfter threw states operatorId st0 users useGramjs hasToken
      chAt fetch pr = mapDelete states operatorId := by
  unfold forwardingStatesAfter startForwardingProcess
  simp only [hm, hc, Option.isNone_some, Bool.or_self, Bool.false_eq_true, if_false]
  split
  · rfl
  · split <;> rfl

/-- First-seen dedup of a duplicate-free list (disjoint from the accumulator)
is the identity. -/
lemma firstSeenDedup_of_disjoint :
    ∀ (l : List String) (seen : List String), l.Nodup → (∀ x ∈ l, x ∉ seen) →
      firstSeenDedup l seen = l := by
  intro l
  induction l with
  | nil => intro seen _ _; rfl
  | cons x rest ih =>
    intro seen hnd hdisj
    have hx : seen.contains x = false := by
      simpa using hdisj x (List.mem_cons_self x rest)
    simp only [firstSeenDedup, hx, Bool.false_eq_true, if_false]
    rw [ih (x :: seen) (List.Nodup.of_cons hnd) ?_]
    intro y hy
    simp only [List.mem_cons, not_or]
    constructor
    · intro hyx
      subst hyx
      exact (List.nodup_cons.mp hnd).1 hy
    · exact hdisj y (List.mem_cons_of_mem _ hy)

/-- For a duplicate-free snapshot, the distinct ids are just the ids. -/
lemma distinctIds_of_nodup (users : List Recipient)
    (hnd : (users.map (fun u => u.userId)).Nodup) :
    (distinctIds users).length = users.length := by
  rw [distinctIds, firstSeenDedup_of_disjoint _ _ hnd (by simp), List.length_map]

/- ### Run-level helper lemmas -/

/-- No run ever emits a group pause: `batchSize = 1` everywhere, and the
`sendsSinceGroupPause` counter is re-declared at 0 for every batch, so it
never reaches `GROUP_SEND_COUNT = 3`. -/
lemma run_pause_zero (states : StateMap) (operatorId : Nat) (st0 : UserState)
    (users : List Recipient) (useGramjs hasToken : Bool) (chAt : Nat → Channels)
    (fetch : List (Option Buffer)) (pr : Nat → Nat) :
    runGroupPauses ((startForwardingProcess states operatorId st0 users useGramjs
      hasToken chAt fetch pr).1) = 0 := by
  unfold startForwardingProcess
  split
  · simp [runGroupPauses, emptyOutcome]
  · split
    · simp [runGroupPauses, emptyOutcome]
    · simp only [runGroupPauses]
      rw [initialPass, sendToUsers_one, runSeq_no_pause]
      rw [Nat.zero_add]
      apply List.sum_eq_zero
      intro v hv
      rcases List.mem_map.mp hv with ⟨rd, hrd, rfl⟩
      rw [retryPhase] at hrd
      rcases retryLoop_rounds_shape chAt users _ useGramjs pr _ _ _ _ rd hrd
        with ⟨fu2, s2, f2, _, hout, _⟩
      rw [hout, sendToUsers_one, runSeq_no_pause]

/-- Every run's initial pass sleeps the per-send delay exactly once per
processed recipient. -/
lemma run_per_send_eq (states : StateMap) (operatorId : Nat) (st0 : UserState)
    (users : List Recipient) (useGramjs hasToken : Bool) (chAt : Nat → Channels)
    (fetch : List (Option Buffer)) (pr : Nat → Nat) :
    ((startForwardingProcess states operatorId st0 users useGramjs hasToken chAt
        fetch pr).1).initial.trace.countP isPerSendSleep
      = ((startForwardingProcess states operatorId st0 users useGramjs hasToken chAt
        fetch pr).1).snapshot.length := by
  unfold startForwardingProcess
  split
  · simp [emptyOutcome]
  · split
    · simp [emptyOutcome]
    · simp only []
      rw [initialPass, sendToUsers_one, runSeq_per_send]

/-- The download phase on a media-typed state with a file id, no cached
buffer, a configured token and a first-try fetch success: exactly one fetch,
and the buffer is cached in the dispatch state. -/
lemma dispatchStateOf_media (st0 : UserState) (mt : MessageType) (buf : Buffer)
    (fetchRest : List (Option Buffer)) (hmt : st0.messageType = some mt)
    (hne : mt ≠ MessageType.text) (hfid : st0.mediaFileId.isSome = true)
    (hbuf : st0.fileBuffer = none) :
    dispatchStateOf st0 true (some buf :: fetchRest)
      = ({ st0 with fileBuffer := some buf }, 1) := by
  rw [dispatchStateOf]
  have h1 : isMediaType st0.messageType = true := by
    simp [isMediaType, hmt, hne]
  rw [if_pos h1, downloadFileBufferOnce]
  have h2 : (st0.mediaFileId.isSome && st0.fileBuffer.isNone && true) = true := by
    simp [hfid, hbuf]
  rw [if_pos h2]
  simp [downloadLoop]

/-- The download phase on a text-typed state does nothing. -/
lemma dispatchStateOf_text (st0 : UserState) (hasToken : Bool)
    (fetch : List (Option Buffer)) (hmt : st0.messageType = some MessageType.text) :
    dispatchStateOf st0 hasToken fetch = (st0, 0) := by
  simp [dispatchStateOf, isMediaType, hmt]

/- ### Claim theorems -/

/-- C1: the claimed conservation invariant `succeeded + failed ==
totalRecipients` for completed runs fails on the code: each retry pass is
seeded with the running totals and counts every retried recipient again,
and a recipient's earlier failure count is never decremented when it later
succeeds.  Concretely, with two recipients where "1" fails the initial pass
(no rate-limit hint) and succeeds in retry round 1, the completed run reports
succeeded = 2 and failed = 1 over totalRecipients = 2, so
succeeded + failed = 3 ≠ 2. -/
theorem C1_conservation_violated_on_retry :
    (startForwardingProcess [] 99 textState [⟨"1", none⟩, ⟨"2", none⟩] false true
        chFailFirst [] (fun _ => 0)).1.totalSuccess = 2
    ∧ (startForwardingProcess [] 99 textState [⟨"1", none⟩, ⟨"2", none⟩] false true
        chFailFirst [] (fun _ => 0)).1.totalFailure = 1
    ∧ (startForwardingProcess [] 99 textState [⟨"1", none⟩, ⟨"2", none⟩] false true
        chFailFirst [] (fun _ => 0)).1.totalUsers = 2
    ∧ ¬((startForwardingProcess [] 99 textState [⟨"1", none⟩, ⟨"2", none⟩] false true
          chFailFirst [] (fun _ => 0)).1.totalSuccess
        + (startForwardingProcess [] 99 textState [⟨"1", none⟩, ⟨"2", none⟩] false true
          chFailFirst [] (fun _ => 0)).1.totalFailure
        = (startForwardingProcess [] 99 textState [⟨"1", none⟩, ⟨"2", none⟩] false true
          chFailFirst [] (fun _ => 0)).1.totalUsers) := by
  decide

/-- C2 counterexample: the run does not deduplicate the recipient list.  On
the spec's own duplicate scenario (ids "1", "2", "1", Bot API succeeding for
all), the initial pass issues two delivery attempts for id "1", and
succeeded + failed = 3, while the number of distinct ids is 2 — so
`len(distinct ids) == succeeded + failed` fails and id "1" is processed
twice, not once. -/
theorem C2_dedup_counterexample :
    (startForwardingProcess [] 99 textState dupUsers false true chOkAll []
        (fun _ => 0)).1.initial.trace.countP (isSendFor "1") = 2
    ∧ (startForwardingProcess [] 99 textState dupUsers false true chOkAll []
        (fun _ => 0)).1.totalSuccess = 3
    ∧ (startForwardingProcess [] 99 textState dupUsers false true chOkAll []
        (fun _ => 0)).1.totalFailure = 0
    ∧ (distinctIds dupUsers).length = 2
    ∧ ¬((distinctIds dupUsers).length
        = (startForwardingProcess [] 99 textState dupUsers false true chOkAll []
            (fun _ => 0)).1.totalSuccess
          + (startForwardingProcess [] 99 textState dupUsers false true chOkAll []
            (fun _ => 0)).1.totalFailure) := by
  decide

/-- C2 amended: the dispatch code performs no deduplication — every element
of the recipient snapshot is processed exactly once in list order, so after
the initial pass `succeeded + failed` equals the snapshot's length (each
occurrence of a duplicated id is processed separately).  The claimed identity
`len(distinct ids) == succeeded + failed` therefore holds exactly when the
snapshot's ids are already duplicate-free, which the database's unique index
on `userId` guarantees for real snapshots. -/
theorem C2_amended_each_element_once (states : StateMap) (operatorId : Nat)
    (st0 : UserState) (users : List Recipient) (useGramjs hasToken : Bool)
    (chAt : Nat → Channels) (fetch : List (Option Buffer)) (pr : Nat → Nat)
    (hm : st0.messageId.isSome = true) (hc : st0.chatId.isSome = true)
    (h3 : users.isEmpty = false)
    (hnd : (users.map (fun u => u.userId)).Nodup) :
    (startForwardingProcess states operatorId st0 users useGramjs hasToken chAt
        fetch pr).1.initial.successCount
      + (startForwardingProcess states operatorId st0 users useGramjs hasToken chAt
        fetch pr).1.initial.failureCount
      = (startForwardingProcess states operatorId st0 users useGramjs hasToken chAt
        fetch pr).1.snapshot.length
    ∧ (distinctIds (startForwardingProcess states operatorId st0 users useGramjs
        hasToken chAt fetch pr).1.snapshot).length
      = (startForwardingProcess states operatorId st0 users useGramjs hasToken chAt
        fetch pr).1.initial.successCount
        + (startForwardingProcess states operatorId st0 users useGramjs hasToken chAt
          fetch pr).1.initial.failureCount := by
  rcases Option.isSome_iff_exists.mp hm with ⟨m0, hm0⟩
  rcases Option.isSome_iff_exists.mp hc with ⟨c0, hc0⟩
  rw [run_normal_eq states operatorId st0 users useGramjs hasToken chAt fetch pr
    m0 c0 hm0 hc0 h3]
  simp only [initialPass]
  rw [sendToUsers_one]
  have h1 := runSeq_counters (chAt 0) (dispatchStateOf st0 hasToken fetch).1
    useGramjs 0 users 0 0
  constructor
  · simpa using h1
  · rw [distinctIds_of_nodup users hnd]
    simpa using h1.symm

/-- C3 counterexample: with GramJS preferred and a recipient "7" without a
username, the run never attempts the Bot API for "7" either — even though the
Bot API would succeed for everyone — and records "7" as failed with zero
delivery attempts, contradicting the claim that it goes straight to the
PrimarySender within the same pass. -/
theorem C3_no_fallback_counterexample :
    (startForwardingProcess [] 99 textState [⟨"7", none⟩] true true chOkAll []
        (fun _ => 0)).1.initial.trace.countP (isSendFor "7") = 0
    ∧ "7" ∈ (startForwardingProcess [] 99 textState [⟨"7", none⟩] true true chOkAll []
        (fun _ => 0)).1.initial.failedUserIds
    ∧ (startForwardingProcess [] 99 textState [⟨"7", none⟩] true true chOkAll []
        (fun _ => 0)).1.totalSuccess = 0
    ∧ (startForwardingProcess [] 99 textState [⟨"7", none⟩] true true chOkAll []
        (fun _ => 0)).1.totalFailure = 1 := by
  decide

/-- C3 amended: when GramJS is preferred and a recipient has no username, the
dispatch loop never invokes the SecondarySender for that recipient — but it
does not attempt the PrimarySender either.  The recipient is skipped with
only the pacing delay, recorded as failed in the same pass, and excluded from
every GramJS retry round, so across the whole run it receives no delivery
attempt on either channel. -/
theorem C3_amended_skip_no_attempt (states : StateMap) (operatorId : Nat)
    (st0 : UserState) (users : List Recipient) (hasToken : Bool)
    (chAt : Nat → Channels) (fetch : List (Option Buffer)) (pr : Nat → Nat)
    (uid : String) (usr : Recipient)
    (hm : st0.messageId.isSome = true) (hc : st0.chatId.isSome = true)
    (hmem : usr ∈ users) (husr : usr.userId = uid)
    (hall : ∀ u ∈ users, u.userId = uid → u.username = none) :
    (startForwardingProcess states operatorId st0 users true hasToken chAt fetch
        pr).1.initial.trace.countP (isSendFor uid) = 0
    ∧ uid ∈ (startForwardingProcess states operatorId st0 users true hasToken chAt
        fetch pr).1.initial.failedUserIds
    ∧ (∀ rd ∈ (startForwardingProcess states operatorId st0 users true hasToken
          chAt fetch pr).1.rounds,
        countById rd.retried uid = 0
          ∧ rd.out.trace.countP (isSendFor uid) = 0) := by
  rcases Option.isSome_iff_exists.mp hm with ⟨m0, hm0⟩
  rcases Option.isSome_iff_exists.mp hc with ⟨c0, hc0⟩
  have h3 : users.isEmpty = false := by
    cases users with
    | nil => simp at hmem
    | cons a l => rfl
  rw [run_normal_eq states operatorId st0 users true hasToken chAt fetch pr
    m0 c0 hm0 hc0 h3]
  simp only [initialPass]
  rw [sendToUsers_one]
  refine ⟨?_, ?_, ?_⟩
  · rw [runSeq_countP_sends _ _ _ _ _ (fun ms => rfl)]
    apply List.sum_eq_zero
    intro v hv
    rcases List.mem_map.mp hv with ⟨u, hu, rfl⟩
    by_cases hid : u.userId = uid
    · rw [elemSend_none_username _ _ u (hall u hu hid)]
      rfl
    · exact elemSend_send_tag _ _ true u uid hid
  · rw [runSeq_failed]
    have hf : (elemSend (chAt 0) (dispatchStateOf st0 hasToken fetch).1 true usr).1
        = false := by
      rw [elemSend_none_username _ _ usr (hall usr hmem husr)]
    rw [← husr]
    apply List.mem_map_of_mem
    rw [List.mem_filter]
    exact ⟨hmem, by simp [hf]⟩
  · intro rd hrd
    rw [retryPhase] at hrd
    rcases retryLoop_rounds_shape (fun n => chAt n) users _ true pr _ _ _ _ rd hrd
      with ⟨fu2, s2, f2, hret, hout, _⟩
    have hz : countById rd.retried uid = 0 := by
      rw [hret]
      apply countById_filter_zero
      intro u hu hid
      rw [retryPred]
      have : u.username = none := hall u hu hid
      simp [this]
    refine ⟨hz, ?_⟩
    rw [hout, sendToUsers_one]
    exact runSeq_no_sends_of_absent _ _ true 0 uid rd.retried hz s2 f2

/-- C4: group pauses are dead code in every run: `sendToUsers` is always
invoked with `batchSize = 1`, and `sendsSinceGroupPause` is declared inside
the per-batch loop, so the counter restarts at 0 for each single-recipient
batch and never reaches `GROUP_SEND_COUNT = 3`.  Hence every run — including
the claim's 7-recipient scenario — issues zero group pauses, not at least 2.
The per-send delay half of the claim does hold (one 300 ms sleep per
recipient in the initial pass), and the modelled pause duration is within
[10s, 20s]. -/
theorem C4_group_pause_never_fires :
    (∀ (states : StateMap) (operatorId : Nat) (st0 : UserState)
        (users : List Recipient) (useGramjs hasToken : Bool)
        (chAt : Nat → Channels) (fetch : List (Option Buffer)) (pr : Nat → Nat),
      runGroupPauses ((startForwardingProcess states operatorId st0 users
        useGramjs hasToken chAt fetch pr).1) = 0
      ∧ ((startForwardingProcess states operatorId st0 users useGramjs hasToken
          chAt fetch pr).1).initial.trace.countP isPerSendSleep
        = ((startForwardingProcess states operatorId st0 users useGramjs hasToken
          chAt fetch pr).1).snapshot.length)
    ∧ runGroupPauses ((startForwardingProcess [] 99 textState sevenUsers false
        true chOkAll [] (fun _ => 0)).1) = 0
    ∧ (startForwardingProcess [] 99 textState sevenUsers false true chOkAll []
        (fun _ => 0)).1.snapshot.length = 7
    ∧ (∀ seed : Nat, 10000 ≤ randomGroupPauseDelayMs 10000 20000 seed
        ∧ randomGroupPauseDelayMs 10000 20000 seed ≤ 20000) := by
  refine ⟨fun states operatorId st0 users useGramjs hasToken chAt fetch pr =>
    ⟨run_pause_zero states operatorId st0 users useGramjs hasToken chAt fetch pr,
     run_per_send_eq states operatorId st0 users useGramjs hasToken chAt fetch pr⟩,
    run_pause_zero [] 99 textState sevenUsers false true chOkAll [] (fun _ => 0),
    by decide, ?_⟩
  intro seed
  rw [randomGroupPauseDelayMs]
  have hmod : seed % (20000 - 10000 + 1) ≤ 10000 := by omega
  omega

/-- C5: across the initial pass and every retry round of a run over a
duplicate-free snapshot, any recipient id is attempted at most
1 (initial) + 3 (retry rounds) = 4 times: the retry loop runs at most
`maxRetries = 3` rounds, and each round attempts each pending id at most
once. -/
theorem C5_retry_ceiling (states : StateMap) (operatorId : Nat) (st0 : UserState)
    (users : List Recipient) (useGramjs hasToken : Bool) (chAt : Nat → Channels)
    (fetch : List (Option Buffer)) (pr : Nat → Nat) (uid : String)
    (hnd : (users.map (fun u => u.userId)).Nodup) :
    attemptsOn ((startForwardingProcess states operatorId st0 users useGramjs
        hasToken chAt fetch pr).1) uid ≤ 1 + 3
    ∧ ((startForwardingProcess states operatorId st0 users useGramjs hasToken chAt
        fetch pr).1).rounds.length ≤ 3 := by
  unfold startForwardingProcess attemptsOn
  split
  · simp [countById]
  · split
    · simp [countById]
    · simp only []
      constructor
      · have h1 : countById users uid ≤ 1 := countById_le_one_of_nodup users uid hnd
        rw [retryPhase]
        have h2 := retryLoop_attempt_sum chAt users
          (dispatchStateOf st0 hasToken fetch).1 useGramjs pr uid h1 [1, 2, 3]
          ((initialPass chAt users (dispatchStateOf st0 hasToken fetch).1 useGramjs
            pr).failedUserIds.map (fun i => FailedUser.mk i 1))
          (initialPass chAt users (dispatchStateOf st0 hasToken fetch).1 useGramjs
            pr).successCount
          (initialPass chAt users (dispatchStateOf st0 hasToken fetch).1 useGramjs
            pr).failureCount
        simp only [List.length_cons, List.length_nil] at h2
        omega
      · rw [retryPhase]
        simpa using retryLoop_len chAt users
          (dispatchStateOf st0 hasToken fetch).1 useGramjs pr [1, 2, 3]
          ((initialPass chAt users (dispatchStateOf st0 hasToken fetch).1 useGramjs
            pr).failedUserIds.map (fun i => FailedUser.mk i 1))
          (initialPass chAt users (dispatchStateOf st0 hasToken fetch).1 useGramjs
            pr).successCount
          (initialPass chAt users (dispatchStateOf st0 hasToken fetch).1 useGramjs
            pr).failureCount

/-- C5 witness: a concrete run (three recipients, "1" failing every pass)
attempts id "1" at most four times and executes at most three retry rounds. -/
theorem C5_retry_ceiling_witness :
    attemptsOn ((startForwardingProcess [] 99 textState
        [⟨"1", none⟩, ⟨"2", none⟩, ⟨"3", none⟩] false true chFailFirst []
        (fun _ => 0)).1) "1" ≤ 1 + 3
    ∧ ((startForwardingProcess [] 99 textState
        [⟨"1", none⟩, ⟨"2", none⟩, ⟨"3", none⟩] false true chFailFirst []
        (fun _ => 0)).1).rounds.length ≤ 3 :=
  C5_retry_ceiling [] 99 textState [⟨"1", none⟩, ⟨"2", none⟩, ⟨"3", none⟩]
    false true chFailFirst [] (fun _ => 0) "1" (by decide)

/-- C6: for a media job (media-typed message with a file id, no cached buffer,
bot token configured) whose first fetch succeeds, the run performs the
underlying media fetch exactly once — no matter which and how many recipients
the snapshot holds — stores that first successful download in the job state,
and every GramJS send in the initial pass and in every retry round carries
exactly that cached buffer. -/
theorem C6_media_resolved_once (st0 : UserState) (mt : MessageType)
    (buf : Buffer) (fetchRest : List (Option Buffer))
    (hmt : st0.messageType = some mt) (hne : mt ≠ MessageType.text)
    (hfid : st0.mediaFileId.isSome = true) (hbuf : st0.fileBuffer = none)
    (hm : st0.messageId.isSome = true) (hc : st0.chatId.isSome = true) :
    ∀ (states : StateMap) (operatorId : Nat) (useGramjs : Bool)
      (chAt : Nat → Channels) (pr : Nat → Nat) (users : List Recipient),
      users.isEmpty = false →
      (startForwardingProcess states operatorId st0 users useGramjs true chAt
          (some buf :: fetchRest) pr).1.fetchCount = 1
      ∧ (startForwardingProcess states operatorId st0 users useGramjs true chAt
          (some buf :: fetchRest) pr).1.dispatchState.fileBuffer = some buf
      ∧ (∀ (uid un : String) (b : Option Buffer),
          Event.secondarySend uid un b ∈ (startForwardingProcess states operatorId
            st0 users useGramjs true chAt (some buf :: fetchRest)
            pr).1.initial.trace → b = some buf)
      ∧ (∀ rd ∈ (startForwardingProcess states operatorId st0 users useGramjs true
            chAt (some buf :: fetchRest) pr).1.rounds,
          ∀ (uid un : String) (b : Option Buffer),
            Event.secondarySend uid un b ∈ rd.out.trace → b = some buf) := by
  intro states operatorId useGramjs chAt pr users h3
  rcases Option.isSome_iff_exists.mp hm with ⟨m0, hm0⟩
  rcases Option.isSome_iff_exists.mp hc with ⟨c0, hc0⟩
  rw [run_normal_eq states operatorId st0 users useGramjs true chAt
    (some buf :: fetchRest) pr m0 c0 hm0 hc0 h3]
  rw [dispatchStateOf_media st0 mt buf fetchRest hmt hne hfid hbuf]
  refine ⟨rfl, rfl, ?_, ?_⟩
  · intro uid un b hmem
    rw [initialPass, sendToUsers_one] at hmem
    have hb := runSeq_secondary_buffer (chAt 0) { st0 with fileBuffer := some buf }
      useGramjs 0 users 0 0 uid un b hmem
    simpa using hb
  · intro rd hrd uid un b hmem
    rw [retryPhase] at hrd
    rcases retryLoop_rounds_shape chAt users _ useGramjs pr _ _ _ _ rd hrd
      with ⟨fu2, s2, f2, _, hout, _⟩
    rw [hout, sendToUsers_one] at hmem
    have hb := runSeq_secondary_buffer (chAt rd.attempt)
      { st0 with fileBuffer := some buf } useGramjs 0 rd.retried s2 f2 uid un b hmem
    simpa using hb

/-- C6 witness: a concrete photo job over two recipients fetches once and
caches the downloaded buffer. -/
theorem C6_media_resolved_once_witness :
    (startForwardingProcess [] 99 mediaState [⟨"1", some "a"⟩, ⟨"2", none⟩] true
        true chOkAll (some [7, 7, 7] :: []) (fun _ => 0)).1.fetchCount = 1
    ∧ (startForwardingProcess [] 99 mediaState [⟨"1", some "a"⟩, ⟨"2", none⟩] true
        true chOkAll (some [7, 7, 7] :: []) (fun _ => 0)).1.dispatchState.fileBuffer
      = some [7, 7, 7]
    ∧ (∀ (uid un : String) (b : Option Buffer),
        Event.secondarySend uid un b ∈ (startForwardingProcess [] 99 mediaState
          [⟨"1", some "a"⟩, ⟨"2", none⟩] true true chOkAll (some [7, 7, 7] :: [])
          (fun _ => 0)).1.initial.trace → b = some [7, 7, 7])
    ∧ (∀ rd ∈ (startForwardingProcess [] 99 mediaState
          [⟨"1", some "a"⟩, ⟨"2", none⟩] true true chOkAll (some [7, 7, 7] :: [])
          (fun _ => 0)).1.rounds,
        ∀ (uid un : String) (b : Option Buffer),
          Event.secondarySend uid un b ∈ rd.out.trace → b = some [7, 7, 7]) :=
  C6_media_resolved_once mediaState MessageType.photo [7, 7, 7] [] rfl
    (by decide) rfl rfl rfl rfl [] 99 true chOkAll (fun _ => 0)
    [⟨"1", some "a"⟩, ⟨"2", none⟩] rfl

/-- C7: for a recipient with a handle in a GramJS-preferred pass, when the
GramJS attempt fails (for any reason) and the Bot API succeeds, the Bot API
fallback is invoked exactly once within the same per-recipient attempt
(one GramJS send event and one Bot API send event for that id in the initial
pass), the recipient is recorded as a success, and no retry round processes
that recipient. -/
theorem C7_fallback_within_same_attempt (states : StateMap) (operatorId : Nat)
    (st0 : UserState) (users : List Recipient) (hasToken : Bool)
    (chAt : Nat → Channels) (fetch : List (Option Buffer)) (pr : Nat → Nat)
    (uid un : String) (usr : Recipient)
    (hm : st0.messageId.isSome = true) (hc : st0.chatId.isSome = true)
    (hmt : st0.messageType = some MessageType.text)
    (hcontent : st0.messageContent.isSome = true) (hbuf : st0.fileBuffer = none)
    (hnd : (users.map (fun u => u.userId)).Nodup)
    (hmem : usr ∈ users) (hid : usr.userId = uid) (hun : usr.username = some un)
    (hsec : (chAt 0).secondary un = false)
    (hprim : (chAt 0).primary uid = Except.ok ()) :
    (startForwardingProcess states operatorId st0 users true hasToken chAt fetch
        pr).1.initial.trace.countP (isSecondaryFor uid) = 1
    ∧ (startForwardingProcess states operatorId st0 users true hasToken chAt fetch
        pr).1.initial.trace.countP (isPrimaryFor uid) = 1
    ∧ uid ∉ (startForwardingProcess states operatorId st0 users true hasToken chAt
        fetch pr).1.initial.failedUserIds
    ∧ (∀ rd ∈ (startForwardingProcess states operatorId st0 users true hasToken
          chAt fetch pr).1.rounds, countById rd.retried uid = 0) := by
  rcases Option.isSome_iff_exists.mp hm with ⟨m0, hm0⟩
  rcases Option.isSome_iff_exists.mp hc with ⟨c0, hc0⟩
  rcases Option.isSome_iff_exists.mp hcontent with ⟨msg, hmsg⟩
  have h3 : users.isEmpty = false := by
    cases users with
    | nil => simp at hmem
    | cons a l => rfl
  rw [run_normal_eq states operatorId st0 users true hasToken chAt fetch pr
    m0 c0 hm0 hc0 h3]
  rw [dispatchStateOf_text st0 hasToken fetch hmt]
  simp only [initialPass]
  rw [sendToUsers_one]
  have hel : elemSend (chAt 0) st0 true usr
      = (true, [Event.secondarySend usr.userId un st0.fileBuffer,
                Event.primarySend usr.userId]) := by
    rw [elemSend]
    simp [hun, hbuf, hmsg, hsec, primaryAttempt, hid, hprim]
  have hinj : ∀ y ∈ users, y.userId = uid → y = usr := by
    intro y hy hyid
    exact eq_of_same_id users hnd y usr hy hmem (by rw [hyid, hid])
  have hnotfailed : uid ∉ (runSeq (chAt 0) st0 true 0 users 0 0).failedUserIds := by
    rw [runSeq_failed]
    intro hmm
    rcases List.mem_map.mp hmm with ⟨u2, hu2, hu2id⟩
    rcases List.mem_filter.mp hu2 with ⟨hu2mem, hu2f⟩
    have heq : u2 = usr := hinj u2 hu2mem hu2id
    subst heq
    rw [hel] at hu2f
    simp at hu2f
  refine ⟨?_, ?_, hnotfailed, ?_⟩
  · rw [runSeq_countP_single (chAt 0) st0 true 0 (isSecondaryFor uid)
      (fun ms => rfl) users usr hnd hmem ?_ 0 0]
    · rw [hel]
      simp [isSecondaryFor, isPrimaryFor, hid]
    · intro y hy hyne
      apply elemSend_secondary_tag
      intro hyid
      exact hyne (hinj y hy hyid)
  · rw [runSeq_countP_single (chAt 0) st0 true 0 (isPrimaryFor uid)
      (fun ms => rfl) users usr hnd hmem ?_ 0 0]
    · rw [hel]
      simp [isSecondaryFor, isPrimaryFor, hid]
    · intro y hy hyne
      apply elemSend_primary_tag
      intro hyid
      exact hyne (hinj y hy hyid)
  · intro rd hrd
    rw [retryPhase] at hrd
    rcases retryLoop_rounds_shape chAt users st0 true pr [1, 2, 3] _ _ _ rd hrd
      with ⟨fu2, s2, f2, hret, _, hsub⟩
    rw [hret]
    apply countById_filter_zero
    intro u2 hu2 hid2
    have hnofu : fu2.any (fun x => x.userId == u2.userId) = false := by
      rw [List.any_eq_false]
      intro x hx hxbeq
      have hxid : x.userId = u2.userId := by simpa using hxbeq
      have hx2 := hsub x hx
      rw [hxid, hid2] at hx2
      simp at hx2
      exact hnotfailed hx2
    rw [retryPred, hnofu]
    rfl

/-- C7 witness: a concrete GramJS-preferred run over recipients "9" (with a
handle, GramJS always failing, Bot API succeeding) and "2" (no handle):
"9" gets exactly one GramJS attempt and one Bot API fallback, is recorded a
success, and is not retried. -/
theorem C7_fallback_within_same_attempt_witness :
    (startForwardingProcess [] 99 textState [⟨"9", some "h9"⟩, ⟨"2", none⟩] true
        true chOkAll [] (fun _ => 0)).1.initial.trace.countP (isSecondaryFor "9") = 1
    ∧ (startForwardingProcess [] 99 textState [⟨"9", some "h9"⟩, ⟨"2", none⟩] true
        true chOkAll [] (fun _ => 0)).1.initial.trace.countP (isPrimaryFor "9") = 1
    ∧ "9" ∉ (startForwardingProcess [] 99 textState [⟨"9", some "h9"⟩, ⟨"2", none⟩]
        true true chOkAll [] (fun _ => 0)).1.initial.failedUserIds
    ∧ (∀ rd ∈ (startForwardingProcess [] 99 textState
          [⟨"9", some "h9"⟩, ⟨"2", none⟩] true true chOkAll []
          (fun _ => 0)).1.rounds, countById rd.retried "9" = 0) :=
  C7_fallback_within_same_attempt [] 99 textState [⟨"9", some "h9"⟩, ⟨"2", none⟩]
    true chOkAll [] (fun _ => 0) "9" "h9" ⟨"9", some "h9"⟩ rfl rfl rfl rfl rfl
    (by decide) (by decide) rfl rfl rfl rfl

/-- C8 counterexample: the claim fails on the secondary (GramJS) channel,
whose rate-limit signal is exactly the `FLOOD_WAIT_N` pattern the claim
names.  The GramJS send helpers catch every error and return `false` with
the error text discarded (`gramSendOutcome`), so the dispatch loop can never
parse a hint from a GramJS error, and the GramJS parse-and-sleep in the
outer catch (part_004 lines 782-788) is unreachable.  Concretely: in a
GramJS-preferred run over recipient "9" whose every GramJS call raises
`FLOOD_WAIT_30` (a 30-second hint) while the Bot API fallback succeeds, the
pass contains no sleep of 30 s or more, and "9" is recorded as a success —
not as failed — so nothing is deferred to a retry round (no round executes
at all), refuting both halves of the claim for that channel. -/
theorem C8_gram_flood_swallowed_counterexample :
    gramSendOutcome (Except.error "FLOOD_WAIT_30") = false
    ∧ parseRetryAfterMs "FLOOD_WAIT_30" = 30000
    ∧ (startForwardingProcess [] 99 textState [⟨"9", some "h9"⟩] true true
        chGramFlood [] (fun _ => 0)).1.initial.trace.countP isSleepAtLeast30s = 0
    ∧ "9" ∉ (startForwardingProcess [] 99 textState [⟨"9", some "h9"⟩] true true
        chGramFlood [] (fun _ => 0)).1.initial.failedUserIds
    ∧ (startForwardingProcess [] 99 textState [⟨"9", some "h9"⟩] true true
        chGramFlood [] (fun _ => 0)).1.totalSuccess = 1
    ∧ (startForwardingProcess [] 99 textState [⟨"9", some "h9"⟩] true true
        chGramFlood [] (fun _ => 0)).1.rounds = [] := by
  decide

/-- C8 amended: only Bot API (primary channel) failures receive the
parse-and-sleep-and-defer treatment.  In detail: (i) `parseRetryAfterMs`
extracts the wait hint from the three error-text patterns (`retry after N`,
`FLOOD_WAIT_N`, `wait of N seconds`); (ii) GramJS errors are swallowed into
a plain `false` with their text discarded, so no hint is ever parsed from
the secondary channel; (iii) a Bot API attempt failing with a positive hint
emits the failed send followed immediately by a sleep of
`hint + 500 ms ≥ hint` before the next send; (iv) at run level (Bot-API-only
pass) the rate-limited recipient's pass contains that sleep and the
recipient is recorded failed, deferring it to the retry rounds rather than
re-trying it within the same pass; (v) in a GramJS-preferred pass, a
recipient whose GramJS attempt fails gets the Bot API fallback within the
same attempt: a successful fallback is recorded a success with no hint
sleep, and a rate-limited fallback failure emits the same hint sleep as
(iii). -/
theorem C8_amended_primary_channel_hint :
    (parseRetryAfterMs "Too Many Requests: retry after 17" = 17000
      ∧ parseRetryAfterMs "FLOOD_WAIT_30" = 30000
      ∧ parseRetryAfterMs "A wait of 12 seconds is required" = 12000
      ∧ parseRetryAfterMs "no hint here" = 0)
    ∧ (∀ e : String, gramSendOutcome (Except.error e) = false)
    ∧ (∀ (ch : Channels) (uid : String) (e : String),
        ch.primary uid = Except.error e → 0 < parseRetryAfterMs e →
          primaryAttempt ch uid
            = (false, [Event.primarySend uid,
                       Event.sleepMs (parseRetryAfterMs e + 500)])
          ∧ parseRetryAfterMs e ≤ parseRetryAfterMs e + 500)
    ∧ (∀ (states : StateMap) (operatorId : Nat) (st0 : UserState)
        (users : List Recipient) (hasToken : Bool) (chAt : Nat → Channels)
        (fetch : List (Option Buffer)) (pr : Nat → Nat) (usr : Recipient)
        (e : String),
        st0.messageId.isSome = true → st0.chatId.isSome = true →
        usr ∈ users → (chAt 0).primary usr.userId = Except.error e →
        0 < parseRetryAfterMs e →
        Event.sleepMs (parseRetryAfterMs e + 500)
            ∈ (startForwardingProcess states operatorId st0 users false hasToken
                chAt fetch pr).1.initial.trace
        ∧ usr.userId ∈ (startForwardingProcess states operatorId st0 users false
            hasToken chAt fetch pr).1.initial.failedUserIds)
    ∧ (∀ (ch : Channels) (st : UserState) (u : Recipient) (un : String),
        u.username = some un →
        (st.fileBuffer.isSome || st.messageContent.isSome) = true →
        ch.secondary un = false →
          (ch.primary u.userId = Except.ok () →
            elemSend ch st true u
              = (true, [Event.secondarySend u.userId un st.fileBuffer,
                        Event.primarySend u.userId]))
          ∧ (∀ e : String, ch.primary u.userId = Except.error e →
              0 < parseRetryAfterMs e →
              elemSend ch st true u
                = (false, [Event.secondarySend u.userId un st.fileBuffer,
                           Event.primarySend u.userId,
                           Event.sleepMs (parseRetryAfterMs e + 500)]))) := by
  refine ⟨⟨by decide, by decide, by decide, by decide⟩, fun e => rfl, ?_, ?_, ?_⟩
  · intro ch uid e herr hw
    constructor
    · rw [primaryAttempt]
      simp [herr, hw]
    · omega
  · intro states operatorId st0 users hasToken chAt fetch pr usr e hm hc hmem
      herr hw
    rcases Option.isSome_iff_exists.mp hm with ⟨m0, hm0⟩
    rcases Option.isSome_iff_exists.mp hc with ⟨c0, hc0⟩
    have h3 : users.isEmpty = false := by
      cases users with
      | nil => simp at hmem
      | cons a l => rfl
    rw [run_normal_eq states operatorId st0 users false hasToken chAt fetch pr
      m0 c0 hm0 hc0 h3]
    simp only [initialPass]
    rw [sendToUsers_one]
    constructor
    · apply runSeq_mem_trace _ _ _ _ usr _ users _ _ hmem
      simp [elemSend, primaryAttempt, herr, hw]
    · rw [runSeq_failed]
      apply List.mem_map_of_mem
      rw [List.mem_filter]
      refine ⟨hmem, ?_⟩
      simp [elemSend, primaryAttempt, herr]
  · intro ch st u un hun helig hsec
    constructor
    · intro hok
      rw [elemSend]
      simp [hun, helig, hsec, primaryAttempt, hok]
    · intro e herr hw
      rw [elemSend]
      simp [hun, helig, hsec, primaryAttempt, herr, hw]

/-- C8 amended, witness: a concrete Bot-API-only run over recipient "4"
whose send fails with "Too Many Requests: retry after 17": the pass sleeps
17500 ms and defers "4" to the retry rounds. -/
theorem C8_amended_primary_channel_hint_witness :
    Event.sleepMs (parseRetryAfterMs "Too Many Requests: retry after 17" + 500)
        ∈ (startForwardingProcess [] 99 textState [⟨"4", none⟩] false true
            (fun _ => ⟨fun _ => false,
              fun _ => Except.error "Too Many Requests: retry after 17"⟩) []
            (fun _ => 0)).1.initial.trace
    ∧ "4" ∈ (startForwardingProcess [] 99 textState [⟨"4", none⟩] false true
        (fun _ => ⟨fun _ => false,
          fun _ => Except.error "Too Many Requests: retry after 17"⟩) []
        (fun _ => 0)).1.initial.failedUserIds :=
  C8_amended_primary_channel_hint.2.2.2.1 [] 99 textState [⟨"4", none⟩] true
    (fun _ => ⟨fun _ => false,
      fun _ => Except.error "Too Many Requests: retry after 17"⟩) []
    (fun _ => 0) ⟨"4", none⟩ "Too Many Requests: retry after 17" rfl rfl
    (by decide) rfl (by decide)

/-- C2 amended, witness: on a concrete duplicate-free two-recipient snapshot
the initial tally equals the snapshot length and the distinct-id count. -/
theorem C2_amended_each_element_once_witness :
    (startForwardingProcess [] 99 textState [⟨"1", some "a"⟩, ⟨"2", none⟩] false
        true chOkAll [] (fun _ => 0)).1.initial.successCount
      + (startForwardingProcess [] 99 textState [⟨"1", some "a"⟩, ⟨"2", none⟩]
        false true chOkAll [] (fun _ => 0)).1.initial.failureCount
      = (startForwardingProcess [] 99 textState [⟨"1", some "a"⟩, ⟨"2", none⟩]
        false true chOkAll [] (fun _ => 0)).1.snapshot.length
    ∧ (distinctIds (startForwardingProcess [] 99 textState
        [⟨"1", some "a"⟩, ⟨"2", none⟩] false true chOkAll []
        (fun _ => 0)).1.snapshot).length
      = (startForwardingProcess [] 99 textState [⟨"1", some "a"⟩, ⟨"2", none⟩]
        false true chOkAll [] (fun _ => 0)).1.initial.successCount
        + (startForwardingProcess [] 99 textState [⟨"1", some "a"⟩, ⟨"2", none⟩]
          false true chOkAll [] (fun _ => 0)).1.initial.failureCount :=
  C2_amended_each_element_once [] 99 textState [⟨"1", some "a"⟩, ⟨"2", none⟩]
    false true chOkAll [] (fun _ => 0) rfl rfl rfl (by decide)

/-- C3 amended, witness: a concrete GramJS-preferred run with the handle-less
recipient "7" alongside "8": no delivery attempt for "7" on either channel,
"7" recorded failed, and no retry round retries "7". -/
theorem C3_amended_skip_no_attempt_witness :
    (startForwardingProcess [] 99 textState [⟨"7", none⟩, ⟨"8", some "h8"⟩] true
        true chOkAll [] (fun _ => 0)).1.initial.trace.countP (isSendFor "7") = 0
    ∧ "7" ∈ (startForwardingProcess [] 99 textState [⟨"7", none⟩, ⟨"8", some "h8"⟩]
        true true chOkAll [] (fun _ => 0)).1.initial.failedUserIds
    ∧ (∀ rd ∈ (startForwardingProcess [] 99 textState
          [⟨"7", none⟩, ⟨"8", some "h8"⟩] true true chOkAll []
          (fun _ => 0)).1.rounds,
        countById rd.retried "7" = 0
          ∧ rd.out.trace.countP (isSendFor "7") = 0) :=
  C3_amended_skip_no_attempt [] 99 textState [⟨"7", none⟩, ⟨"8", some "h8"⟩]
    true chOkAll [] (fun _ => 0) "7" ⟨"7", none⟩ rfl rfl (by decide) rfl
    (by decide)

/-- C9: when an operator already has an active send flow, a second `/send`
(in a private chat) leaves the state map unchanged — the existing flow's
state is neither overwritten nor deleted and no new flow starts — and only
the rejection reply is sent. -/
theorem C9_second_send_rejected (m : StateMap) (c : SendCtx) (uid : Nat)
    (hf : c.fromId = some uid) (hp : c.chatKind = some ChatKind.priv)
    (hhas : mapHas m uid = true) :
    handleSendCommand m c = (m, some activeFlowReply)
    ∧ mapGet (handleSendCommand m c).1 uid = mapGet m uid := by
  have h : handleSendCommand m c = (m, some activeFlowReply) := by
    simp [handleSendCommand, hf, hp, hhas]
  exact ⟨h, by rw [h]⟩

/-- C9 witness: with operator 99 mid-flow, a second `/send` keeps the map and
replies only the rejection text. -/
theorem C9_second_send_rejected_witness :
    handleSendCommand [(99, textState)] ⟨some 99, some ChatKind.priv⟩
      = ([(99, textState)], some activeFlowReply)
    ∧ mapGet (handleSendCommand [(99, textState)]
        ⟨some 99, some ChatKind.priv⟩).1 99 = mapGet [(99, textState)] 99 :=
  C9_second_send_rejected [(99, textState)] ⟨some 99, some ChatKind.priv⟩ 99
    rfl rfl (by decide)

/-- C10: whenever the forwarding process terminates — the broadcast
completes, the recipient snapshot is empty, or the body throws mid-run (the
`finally` clause runs in every case) — the operator's entry is removed from
the per-operator state map, so a subsequent `/send` starts a fresh flow
(prompting for the message instead of rejecting). -/
theorem C10_state_removed_on_termination (threw : Bool) (states : StateMap)
    (operatorId : Nat) (st0 : UserState) (users : List Recipient)
    (useGramjs hasToken : Bool) (chAt : Nat → Channels)
    (fetch : List (Option Buffer)) (pr : Nat → Nat)
    (hm : st0.messageId.isSome = true) (hc : st0.chatId.isSome = true) :
    mapGet (forwardingStatesAfter threw states operatorId st0 users useGramjs
      hasToken chAt fetch pr) operatorId = none
    ∧ mapHas (forwardingStatesAfter threw states operatorId st0 users useGramjs
      hasToken chAt fetch pr) operatorId = false
    ∧ (handleSendCommand (forwardingStatesAfter threw states operatorId st0 users
        useGramjs hasToken chAt fetch pr)
        ⟨some operatorId, some ChatKind.priv⟩).2 = some askMessageReply := by
  rcases Option.isSome_iff_exists.mp hm with ⟨m0, hm0⟩
  rcases Option.isSome_iff_exists.mp hc with ⟨c0, hc0⟩
  rw [forwardingStatesAfter_deletes threw states operatorId st0 users useGramjs
    hasToken chAt fetch pr m0 c0 hm0 hc0]
  refine ⟨mapGet_delete states operatorId, mapHas_delete states operatorId, ?_⟩
  simp [handleSendCommand, mapHas_delete]

/-- C10 witness: after a completed concrete run (and equally after a thrown
one), operator 99's entry is gone and a new `/send` prompts afresh. -/
theorem C10_state_removed_on_termination_witness :
    mapGet (forwardingStatesAfter false [(99, textState)] 99 textState
      [⟨"1", none⟩] false true chOkAll [] (fun _ => 0)) 99 = none
    ∧ mapHas (forwardingStatesAfter false [(99, textState)] 99 textState
      [⟨"1", none⟩] false true chOkAll [] (fun _ => 0)) 99 = false
    ∧ (handleSendCommand (forwardingStatesAfter false [(99, textState)] 99
        textState [⟨"1", none⟩] false true chOkAll [] (fun _ => 0))
        ⟨some 99, some ChatKind.priv⟩).2 = some askMessageReply :=
  C10_state_removed_on_termination false [(99, textState)] 99 textState
    [⟨"1", none⟩] false true chOkAll [] (fun _ => 0) rfl rfl

end TgFwd
